import Mathlib

set_option linter.unusedVariables false

/-!
Verification of `common/threads/Pthread.h` (avd concurrency wrappers).

The header defines four thin wrapper classes over the POSIX threading API:
`Mutex`, `ConditionVariable`, `LockGuard<M>` (with a specialization
`LockGuard<pthread_mutex_t>`), and `ScopedThread`.  We embed each method as a
pure Lean function that mirrors the C++ body line by line: every native
pthread call the method performs is recorded in an output trace of
`NativeCall` values, and the integer status each native call would return is
supplied as an explicit input, so that theorems can quantify over all
possible native behaviours.  Object state (the fields of each class) is an
explicit structure.  The native handles themselves are identified by `Nat`
tags so that theorems can speak about which handle a call targets.
-/

namespace avd

/-- Integer status code returned by a native pthread call (0 = success,
otherwise an errno-style error code). -/
abbrev Status := Int

/-- Model of `struct timespec` as produced for the timed wait.  Monotonic
time is never negative, so `Nat` fields suffice for this embedding. -/
structure Timespec where
  tv_sec : Nat
  tv_nsec : Nat
deriving DecidableEq, Repr

/-- Modelled from the spec: `avd::time::MonotonicTimePoint` (declared in
`MonotonicTime.h`, which is not part of the sources under review) is "an
opaque monotonic time-point type supplying a conversion to the native wait
call's time representation".  We model it as a count of nanoseconds on the
monotonic clock. -/
structure MonotonicTimePoint where
  nanos : Nat
deriving DecidableEq, Repr

/-- Modelled from the spec: the conversion `MonotonicTimePoint::ToTimespec`
to the native time representation (seconds plus nanoseconds-in-second). -/
def MonotonicTimePoint.ToTimespec (tp : MonotonicTimePoint) : Timespec :=
  { tv_sec := tp.nanos / 1000000000, tv_nsec := tp.nanos % 1000000000 }

/-- Total number of nanoseconds denoted by a `Timespec`. -/
def Timespec.toNanos (ts : Timespec) : Nat :=
  ts.tv_sec * 1000000000 + ts.tv_nsec

/-- One native pthread call performed by a wrapper, with the `Nat` tags
identifying the handles it targets. -/
inductive NativeCall where
  | mutex_init (m : Nat)
  | mutex_destroy (m : Nat)
  | mutex_lock (m : Nat)
  | mutex_unlock (m : Nat)
  | condattr_init
  | condattr_setclock_monotonic
  | condattr_destroy
  | cond_init_default (c : Nat)
  | cond_init_monotonic_attr (c : Nat)
  | cond_destroy (c : Nat)
  | cond_signal (c : Nat)
  | cond_broadcast (c : Nat)
  | cond_wait (c : Nat) (m : Nat)
  | cond_timedwait_monotonic_np (c : Nat) (m : Nat) (ts : Timespec)
  | cond_timedwait (c : Nat) (m : Nat) (ts : Timespec)
  | thread_create (t : Nat) (start : Nat) (arg : Nat)
  | thread_join (t : Nat)
deriving DecidableEq, Repr

/-! ## Mutex

```cpp
class Mutex {
  Mutex() { pthread_mutex_init(&mutex_, NULL); }
  ~Mutex() { pthread_mutex_destroy(&mutex_); }
  void Lock() { pthread_mutex_lock(&mutex_); }
  void Unlock() { pthread_mutex_unlock(&mutex_); }
  pthread_mutex_t* GetMutex() { return &mutex_; }
  pthread_mutex_t mutex_;
};
```
-/

/-- State of an `avd::Mutex` object: it wraps exactly one native mutex
handle (identified by its tag) and nothing else — in particular no stored
status of the creation call. -/
structure Mutex where
  mutex_ : Nat
deriving DecidableEq, Repr

/-- `Mutex::Mutex()`: calls `pthread_mutex_init(&mutex_, NULL)`.  The
status that native call returns (`initStatus`) is discarded; the
constructor cannot fail from the caller's point of view. -/
def Mutex.construct (m : Nat) (initStatus : Status) : Mutex × List NativeCall :=
  ({ mutex_ := m }, [NativeCall.mutex_init m])

/-- `Mutex::~Mutex()`: calls `pthread_mutex_destroy(&mutex_)`, discarding
its status. -/
def Mutex.destruct (mu : Mutex) (destroyStatus : Status) : List NativeCall :=
  [NativeCall.mutex_destroy mu.mutex_]

/-- `Mutex::Lock()`: calls `pthread_mutex_lock(&mutex_)` and returns
`void`, discarding the native status `lockStatus`. -/
def Mutex.Lock (mu : Mutex) (lockStatus : Status) : Unit × List NativeCall :=
  ((), [NativeCall.mutex_lock mu.mutex_])

/-- `Mutex::Unlock()`: calls `pthread_mutex_unlock(&mutex_)` and returns
`void`, discarding the native status `unlockStatus`. -/
def Mutex.Unlock (mu : Mutex) (unlockStatus : Status) : Unit × List NativeCall :=
  ((), [NativeCall.mutex_unlock mu.mutex_])

/-- `Mutex::GetMutex()`: returns `&mutex_` (the wrapped handle). -/
def Mutex.GetMutex (mu : Mutex) : Nat :=
  mu.mutex_

/-! ## ConditionVariable

```cpp
explicit ConditionVariable(Mutex* mutex) : mutex_(mutex) {
#if GCE_PLATFORM_SDK_BEFORE(L)
  pthread_cond_init(&cond_, NULL);
#else
  pthread_condattr_t attr;
  pthread_condattr_init(&attr);
  pthread_condattr_setclock(&attr, CLOCK_MONOTONIC);
  pthread_cond_init(&cond_, &attr);
  pthread_condattr_destroy(&attr);
#endif
}
int NotifyOne() { return pthread_cond_signal(&cond_); }
int NotifyAll() { return pthread_cond_broadcast(&cond_); }
int Wait() { return pthread_cond_wait(&cond_, mutex_->GetMutex()); }
int WaitUntil(const avd::time::MonotonicTimePoint& tp) {
  struct timespec ts;
  tp.ToTimespec(&ts);
#if GCE_PLATFORM_SDK_BEFORE(L)
  return pthread_cond_timedwait_monotonic_np(&cond_, mutex_->GetMutex(), &ts);
#else
  return pthread_cond_timedwait(&cond_, mutex_->GetMutex(), &ts);
#endif
}
```

The preprocessor condition `GCE_PLATFORM_SDK_BEFORE(L)` is a build-time
platform-capability macro; we embed it as an explicit `Bool` parameter
`sdkBeforeL` fixed once per build and threaded to every function whose body
the macro affects. -/

/-- State of an `avd::ConditionVariable` object: the non-owning pointer to
the associated `Mutex` (field `mutex_`), and the wrapped native condition
variable handle (field `cond_`, identified by its tag). -/
structure ConditionVariable where
  mutex_ : Mutex
  cond_ : Nat
deriving DecidableEq, Repr

/-- `ConditionVariable::ConditionVariable(Mutex*)`: stores the mutex
pointer and initializes the native condition variable; under
`GCE_PLATFORM_SDK_BEFORE(L)` with default attributes, otherwise with a
`CLOCK_MONOTONIC` clock attribute.  All statuses returned by the native
calls made during construction (`initStatuses`) are discarded. -/
def ConditionVariable.construct (sdkBeforeL : Bool) (c : Nat) (mutex : Mutex)
    (initStatuses : List Status) : ConditionVariable × List NativeCall :=
  if sdkBeforeL then
    ({ mutex_ := mutex, cond_ := c }, [NativeCall.cond_init_default c])
  else
    ({ mutex_ := mutex, cond_ := c },
      [NativeCall.condattr_init, NativeCall.condattr_setclock_monotonic,
       NativeCall.cond_init_monotonic_attr c, NativeCall.condattr_destroy])

/-- `ConditionVariable::~ConditionVariable()`: calls
`pthread_cond_destroy(&cond_)`, discarding its status. -/
def ConditionVariable.destruct (cv : ConditionVariable) (destroyStatus : Status) :
    List NativeCall :=
  [NativeCall.cond_destroy cv.cond_]

/-- `ConditionVariable::NotifyOne()`: `return pthread_cond_signal(&cond_)`.
The native status `s` is returned to the caller unmodified. -/
def ConditionVariable.NotifyOne (cv : ConditionVariable) (s : Status) :
    Status × List NativeCall :=
  (s, [NativeCall.cond_signal cv.cond_])

/-- `ConditionVariable::NotifyAll()`: `return pthread_cond_broadcast(&cond_)`. -/
def ConditionVariable.NotifyAll (cv : ConditionVariable) (s : Status) :
    Status × List NativeCall :=
  (s, [NativeCall.cond_broadcast cv.cond_])

/-- `ConditionVariable::Wait()`: `return pthread_cond_wait(&cond_,
mutex_->GetMutex())`. -/
def ConditionVariable.Wait (cv : ConditionVariable) (s : Status) :
    Status × List NativeCall :=
  (s, [NativeCall.cond_wait cv.cond_ cv.mutex_.GetMutex])

/-- `ConditionVariable::WaitUntil(tp)`: converts `tp` to a `timespec` and
returns the status of the platform-selected native timed wait unmodified.  -/
def ConditionVariable.WaitUntil (sdkBeforeL : Bool) (cv : ConditionVariable)
    (tp : MonotonicTimePoint) (s : Status) : Status × List NativeCall :=
  let ts := tp.ToTimespec
  if sdkBeforeL then
    (s, [NativeCall.cond_timedwait_monotonic_np cv.cond_ cv.mutex_.GetMutex ts])
  else
    (s, [NativeCall.cond_timedwait cv.cond_ cv.mutex_.GetMutex ts])

/-! ## LockGuard (generic)

```cpp
template <typename M> class LockGuard {
 public:
  explicit LockGuard(M& mutex) : mutex_(mutex) { mutex_.Lock(); }
  ~LockGuard() { mutex_.Unlock(); }
 private:
  M& mutex_;
};
```

The template parameter `M` is any lock-capable type exposing `Lock`/`Unlock`
(the spec calls these Acquire/Release).  We embed `M` as an arbitrary state
type `σ` together with its two operations, and the guard's constructor and
destructor as the exact calls the C++ bodies make.  Note there is no field
besides the reference `mutex_`, and the destructor body is the single
unconditional statement `mutex_.Unlock()`. -/

/-- Interface of the template parameter `M` of `LockGuard<M>`: a state type
with a blocking acquire and a release operation. -/
structure LockOps (σ : Type) where
  Lock : σ → σ
  Unlock : σ → σ

/-- `LockGuard<M>::LockGuard(M&)`: the constructor body is exactly
`mutex_.Lock();`. -/
def LockGuard.construct (ops : LockOps σ) (s : σ) : σ :=
  ops.Lock s

/-- `LockGuard<M>::~LockGuard()`: the destructor body is exactly
`mutex_.Unlock();` — unconditional, no flag consulted. -/
def LockGuard.destruct (ops : LockOps σ) (s : σ) : σ :=
  ops.Unlock s

/-- Whole lifetime of a `LockGuard<M>` around a protected `body`:
construction, then the protected code, then destruction. -/
def LockGuard.lifetime (ops : LockOps σ) (body : σ → σ) (s : σ) : σ :=
  LockGuard.destruct ops (body (LockGuard.construct ops s))

/-- Instrumented lock (the "instrumented/fake native mutex" of the spec's
test plan): wraps any `LockOps` so the state additionally counts how many
acquires and how many releases have been performed on it. -/
def LockOps.counting (ops : LockOps σ) : LockOps (σ × Nat × Nat) where
  Lock := fun p => (ops.Lock p.1, p.2.1 + 1, p.2.2)
  Unlock := fun p => (ops.Unlock p.1, p.2.1, p.2.2 + 1)

/-- Lift a protected-section body that works on the underlying lock state to
the instrumented state; the body itself performs no acquire or release. -/
def liftBody (body : σ → σ) : σ × Nat × Nat → σ × Nat × Nat :=
  fun p => (body p.1, p.2)

/-- Our `Mutex` wrapper, seen as a lock-capable type for `LockGuard<Mutex>`:
its `Lock`/`Unlock` each append the corresponding native call to a trace and
discard the native `status` (irrelevant since `Mutex::Lock`/`Unlock` return
`void`). -/
def Mutex.ops (mu : Mutex) (status : Status) : LockOps (List NativeCall) where
  Lock := fun tr => tr ++ (Mutex.Lock mu status).2
  Unlock := fun tr => tr ++ (Mutex.Unlock mu status).2

/-! ## LockGuard<pthread_mutex_t> (raw-handle specialization)

```cpp
template<> class LockGuard<pthread_mutex_t> {
 public:
  explicit LockGuard(pthread_mutex_t& mutex) : mutex_(mutex), unlock_(false) {
    unlock_ = (pthread_mutex_lock(&mutex_) == 0);
  }
  ~LockGuard() {
    if (unlock_) {
      pthread_mutex_unlock(&mutex_);
    }
  }
 private:
  pthread_mutex_t& mutex_;
  bool unlock_;
};
```
-/

/-- State of a `LockGuard<pthread_mutex_t>` object: the referenced raw
native mutex handle and the `unlock_` flag recording whether the acquire
call succeeded. -/
structure LockGuardRaw where
  mutex_ : Nat
  unlock_ : Bool
deriving DecidableEq, Repr

/-- `LockGuard<pthread_mutex_t>::LockGuard`: performs
`pthread_mutex_lock(&mutex_)` (whose native status is `lockStatus`) and
sets `unlock_` to whether that call returned 0. -/
def LockGuardRaw.construct (m : Nat) (lockStatus : Status) :
    LockGuardRaw × List NativeCall :=
  ({ mutex_ := m, unlock_ := lockStatus == 0 }, [NativeCall.mutex_lock m])

/-- `LockGuard<pthread_mutex_t>::~LockGuard`: performs
`pthread_mutex_unlock(&mutex_)` if and only if `unlock_` is set. -/
def LockGuardRaw.destruct (g : LockGuardRaw) : List NativeCall :=
  if g.unlock_ then [NativeCall.mutex_unlock g.mutex_] else []

/-! ## ScopedThread

```cpp
class ScopedThread {
 public:
  ScopedThread(void* (*start)(void*), void* arg) {
    pthread_create(&thread_, NULL, start, arg);
  }
  ~ScopedThread() {
    void* value;
    pthread_join(thread_, &value);
  }
 protected:
  pthread_t thread_;
};
```
-/

/-- State of an `avd::ScopedThread` object: the single field `thread_`
written by `pthread_create` — in particular no flag recording whether the
creation call succeeded. -/
structure ScopedThread where
  thread_ : Nat
deriving DecidableEq, Repr

/-- `ScopedThread::ScopedThread(start, arg)`: performs exactly one
`pthread_create(&thread_, NULL, start, arg)` call; `tid` is the native
thread handle it writes into `thread_`, and `createStatus` the status it
returns, which the constructor discards. -/
def ScopedThread.construct (tid : Nat) (start : Nat) (arg : Nat)
    (createStatus : Status) : ScopedThread × List NativeCall :=
  ({ thread_ := tid }, [NativeCall.thread_create tid start arg])

/-- `ScopedThread::~ScopedThread()`: performs exactly one
`pthread_join(thread_, &value)` call, unconditionally; both the join status
`joinStatus` and the joined thread's return value `retVal` (written into
the local `value`) are discarded. -/
def ScopedThread.destruct (t : ScopedThread) (joinStatus : Status)
    (retVal : Nat) : List NativeCall :=
  [NativeCall.thread_join t.thread_]

/-- Whole lifetime trace of a `ScopedThread`: every native call made from
construction to the end of destruction. -/
def ScopedThread.lifetime (tid : Nat) (start : Nat) (arg : Nat)
    (createStatus : Status) (joinStatus : Status) (retVal : Nat) :
    List NativeCall :=
  let (t, ctrace) := ScopedThread.construct tid start arg createStatus
  ctrace ++ ScopedThread.destruct t joinStatus retVal

/-! ## Native timed-wait outcome (for the deadline claim)

The timeout behaviour of `WaitUntil` is decided by the native
`pthread_cond_timedwait` / `pthread_cond_timedwait_monotonic_np` call, an
external collaborator of this header. -/

/-- Native `ETIMEDOUT` error code returned by a timed wait whose deadline
elapsed. -/
def ETIMEDOUT : Status := 110

/-- Result of a native timed wait: the returned status and whether the call
actually blocked the thread. -/
structure TimedwaitOutcome where
  status : Status
  blocked : Bool
deriving DecidableEq, Repr

/-- Modelled from the spec: the outcome of the native monotonic timed-wait
call (missing from the sources under review).  Per the spec, a deadline
that has already elapsed at monotonic time `now` yields a timeout status
without blocking; otherwise the call blocks and eventually returns some
native status `wake` (0 after a notification, `ETIMEDOUT` if the deadline
passes while blocked, etc.). -/
def nativeTimedwait (now : Nat) (ts : Timespec) (wake : Status) :
    TimedwaitOutcome :=
  if ts.toNanos ≤ now then { status := ETIMEDOUT, blocked := false }
  else { status := wake, blocked := true }

/-- `ConditionVariable::WaitUntil` composed with the native timed-wait
model: the status the wrapper returns is exactly the status the native call
produces at monotonic time `now`. -/
def ConditionVariable.WaitUntilRun (sdkBeforeL : Bool) (cv : ConditionVariable)
    (tp : MonotonicTimePoint) (now : Nat) (wake : Status) :
    TimedwaitOutcome × List NativeCall :=
  let o := nativeTimedwait now tp.ToTimespec wake
  (o, (ConditionVariable.WaitUntil sdkBeforeL cv tp o.status).2)

/-! ## Mutual exclusion (interleaving semantics)

`Mutex::Lock`/`Mutex::Unlock` delegate to the native mutex, so the mutual
exclusion property of §8.1 of the spec is settled against an interleaving
model of N threads each doing Acquire / critical section / Release on one
shared native mutex. -/

/-- Program counter of one thread in the Acquire / critical-section /
Release protocol. -/
inductive ThreadPC where
  | idle
  | inCS
  | finished
deriving DecidableEq, Repr

/-- State of a system of `n` threads sharing one native mutex: who (if
anyone) currently owns the mutex, and each thread's program counter. -/
structure MutexSys (n : Nat) where
  owner : Option (Fin n)
  pc : Fin n → ThreadPC

/-- Modelled from the spec: one interleaved step of the system.  The native
mutex acquire is atomic and blocks the calling thread until the primitive
is obtained, so a thread's `acquire` step can only fire when no thread owns
the mutex (otherwise the thread stays blocked and takes no step); `release`
relinquishes ownership after the critical section. -/
inductive MutexStep (n : Nat) : MutexSys n → MutexSys n → Prop where
  | acquire (i : Fin n) (s : MutexSys n)
      (hpc : s.pc i = ThreadPC.idle) (hfree : s.owner = none) :
      MutexStep n s ⟨some i, Function.update s.pc i ThreadPC.inCS⟩
  | release (i : Fin n) (s : MutexSys n)
      (hpc : s.pc i = ThreadPC.inCS) :
      MutexStep n s ⟨none, Function.update s.pc i ThreadPC.finished⟩

/-- Initial state: the mutex is free and every thread is about to acquire. -/
def MutexSys.init (n : Nat) : MutexSys n :=
  ⟨none, fun _ => ThreadPC.idle⟩

/-- States reachable by interleaved execution from the initial state. -/
inductive MutexReachable (n : Nat) : MutexSys n → Prop where
  | init : MutexReachable n (MutexSys.init n)
  | step {s t : MutexSys n} : MutexReachable n s → MutexStep n s t →
      MutexReachable n t

/-- Inductive invariant: any thread inside its critical section owns the
mutex. -/
def MutexInv {n : Nat} (s : MutexSys n) : Prop :=
  ∀ i : Fin n, s.pc i = ThreadPC.inCS → s.owner = some i

lemma mutexInv_init (n : Nat) : MutexInv (MutexSys.init n) := by
  intro i h
  simp [MutexSys.init] at h

lemma mutexInv_step {n : Nat} {s t : MutexSys n} (hinv : MutexInv s)
    (hstep : MutexStep n s t) : MutexInv t := by
  cases hstep with
  | acquire j s hpc hfree =>
      intro i hi
      by_cases hij : i = j
      · subst hij
        rfl
      · exfalso
        have hi' : s.pc i = ThreadPC.inCS := by
          simpa [Function.update, hij] using hi
        have := hinv i hi'
        rw [hfree] at this
        exact Option.noConfusion this
  | release j s hpc =>
      intro i hi
      by_cases hij : i = j
      · subst hij
        simp [Function.update] at hi
      · have hi' : s.pc i = ThreadPC.inCS := by
          simpa [Function.update, hij] using hi
        have h1 := hinv i hi'
        have h2 := hinv j hpc
        rw [h1] at h2
        exact absurd (Option.some.inj h2) hij

lemma mutexInv_reachable {n : Nat} {s : MutexSys n}
    (h : MutexReachable n s) : MutexInv s := by
  induction h with
  | init => exact mutexInv_init n
  | step _ hstep ih => exact mutexInv_step ih hstep

/-! ## Claim theorems -/

/-- Claim C1: for the raw-native-handle `LockGuard<pthread_mutex_t>`
specialization, construction records in `unlock_` whether the native
`pthread_mutex_lock` call returned success, and destruction performs the
native unlock call if and only if that recorded acquisition succeeded; in
particular, when the acquire call fails (any nonzero status) destruction
performs no release call. -/
theorem lockGuardRaw_release_iff_acquired (m : Nat) (lockStatus : Status) :
    (LockGuardRaw.construct m lockStatus).1.unlock_ = (lockStatus == 0) ∧
    LockGuardRaw.destruct (LockGuardRaw.construct m lockStatus).1 =
      (if lockStatus == 0 then [NativeCall.mutex_unlock m] else []) := by
  refine ⟨rfl, ?_⟩
  by_cases h : lockStatus == 0 <;>
    simp [LockGuardRaw.construct, LockGuardRaw.destruct, h]

/-- Claim C2: `NotifyOne`, `NotifyAll`, `Wait`, and `WaitUntil` on a
`ConditionVariable` each return exactly the integer status produced by the
corresponding native pthread call, unmodified, for every invocation (every
object, status, deadline, and build-time flavor). -/
theorem conditionVariable_status_passthrough (cv : ConditionVariable)
    (s : Status) (flag : Bool) (tp : MonotonicTimePoint) :
    (cv.NotifyOne s).1 = s ∧ (cv.NotifyAll s).1 = s ∧ (cv.Wait s).1 = s ∧
    (ConditionVariable.WaitUntil flag cv tp s).1 = s := by
  refine ⟨rfl, rfl, rfl, ?_⟩
  cases flag <;> rfl

/-- Claim C3: for the generic `LockGuard<M>` over any lock-capable `M`,
construction performs exactly one acquire and destruction exactly one
release of the same referenced lock, unconditionally: instrumenting an
arbitrary `LockOps` with acquire/release counters, any guard lifetime
around any protected body adds exactly one to each counter; and for the
`Mutex` wrapper the lifetime trace is exactly one native lock followed by
one native unlock of that mutex handle, whatever the native statuses. -/
theorem lockGuard_acquire_release_once {σ : Type} (ops : LockOps σ)
    (body : σ → σ) (s : σ) (a r : Nat) :
    LockGuard.lifetime ops.counting (liftBody body) (s, a, r) =
      (ops.Unlock (body (ops.Lock s)), a + 1, r + 1) ∧
    (∀ (mu : Mutex) (st : Status) (tr : List NativeCall),
      LockGuard.lifetime (mu.ops st) id tr =
        tr ++ [NativeCall.mutex_lock mu.mutex_,
               NativeCall.mutex_unlock mu.mutex_]) := by
  refine ⟨rfl, ?_⟩
  intro mu st tr
  simp [LockGuard.lifetime, LockGuard.construct, LockGuard.destruct,
    Mutex.ops, Mutex.Lock, Mutex.Unlock]

/-- Claim C4: the constructors of `Mutex`, `ConditionVariable`, and
`ScopedThread` never check or surface the status returned by the native
creation call: the entire constructor result (object state and native call
trace, with no failure reported) is the same whatever statuses the native
creation calls return. -/
theorem constructors_discard_native_status (m c tid start arg : Nat)
    (mutex : Mutex) (flag : Bool) (s s' : Status) (l l' : List Status) :
    Mutex.construct m s = Mutex.construct m s' ∧
    ConditionVariable.construct flag c mutex l =
      ConditionVariable.construct flag c mutex l' ∧
    ScopedThread.construct tid start arg s =
      ScopedThread.construct tid start arg s' := by
  refine ⟨rfl, ?_, rfl⟩
  cases flag <;> rfl

/-- Claim C5: the choice between the fallback condition-variable flavor
(default-attribute init plus `pthread_cond_timedwait_monotonic_np`) and the
monotonic-clock-attributed flavor (`CLOCK_MONOTONIC` attribute plus
`pthread_cond_timedwait`) is the single build-time boolean `sdkBeforeL`,
the same one for construction and for `WaitUntil`, and the native calls
emitted depend on nothing but that flag (and the handles/deadline
involved), never on runtime state. -/
theorem signal_flavor_is_build_time_binary (flag : Bool) (c : Nat)
    (mutex : Mutex) (l : List Status) (cv : ConditionVariable)
    (tp : MonotonicTimePoint) (s : Status) :
    (ConditionVariable.construct flag c mutex l).2 =
      (if flag then [NativeCall.cond_init_default c]
       else [NativeCall.condattr_init, NativeCall.condattr_setclock_monotonic,
             NativeCall.cond_init_monotonic_attr c,
             NativeCall.condattr_destroy]) ∧
    (ConditionVariable.WaitUntil flag cv tp s).2 =
      (if flag then [NativeCall.cond_timedwait_monotonic_np cv.cond_
                       cv.mutex_.GetMutex tp.ToTimespec]
       else [NativeCall.cond_timedwait cv.cond_
               cv.mutex_.GetMutex tp.ToTimespec]) := by
  cases flag <;> exact ⟨rfl, rfl⟩

/-- Claim C6: `WaitUntil(tp)` converts the monotonic deadline faithfully to
the native `timespec` representation (the conversion preserves the
nanosecond count exactly), and, under the modelled native timed-wait
semantics, a deadline at or before the current monotonic time yields the
timeout status `ETIMEDOUT` without blocking, for either build-time
flavor. -/
theorem waitUntil_past_deadline_times_out (flag : Bool)
    (cv : ConditionVariable) (tp : MonotonicTimePoint) (now : Nat)
    (wake : Status) (hpast : tp.nanos ≤ now) :
    (ConditionVariable.WaitUntilRun flag cv tp now wake).1 =
      { status := ETIMEDOUT, blocked := false } ∧
    tp.ToTimespec.toNanos = tp.nanos := by
  have hconv : tp.ToTimespec.toNanos = tp.nanos := by
    show tp.nanos / 1000000000 * 1000000000 + tp.nanos % 1000000000 = tp.nanos
    rw [Nat.mul_comm]
    exact Nat.div_add_mod tp.nanos 1000000000
  refine ⟨?_, hconv⟩
  show nativeTimedwait now tp.ToTimespec wake = _
  simp [nativeTimedwait, hconv, hpast]

/-- Claim C6 witness: a concrete `WaitUntil` run whose deadline (5 ns) is
already past at monotonic time 7 ns returns `ETIMEDOUT` without
blocking. -/
theorem waitUntil_past_deadline_times_out_witness :
    (MonotonicTimePoint.mk 5).nanos ≤ 7 ∧
    ((ConditionVariable.WaitUntilRun true ⟨⟨1⟩, 2⟩ ⟨5⟩ 7 0).1 =
        { status := ETIMEDOUT, blocked := false } ∧
      (MonotonicTimePoint.mk 5).ToTimespec.toNanos =
        (MonotonicTimePoint.mk 5).nanos) :=
  ⟨by decide,
    waitUntil_past_deadline_times_out true ⟨⟨1⟩, 2⟩ ⟨5⟩ 7 0 (by decide)⟩

/-- Claim C7: a `ScopedThread`'s full lifetime performs exactly one native
`pthread_create` with the given entry function and opaque argument followed
by exactly one `pthread_join` of that thread and nothing else (creation is
starting: no separate start call appears, and no cancellation call exists
in the trace); and destruction discards the joined thread's return value —
its native calls are the same whatever value the thread returned and
whatever status the join produced. -/
theorem scopedThread_create_then_join (tid start arg : Nat) (cs js : Status)
    (v : Nat) :
    ScopedThread.lifetime tid start arg cs js v =
      [NativeCall.thread_create tid start arg, NativeCall.thread_join tid] ∧
    (∀ (js' : Status) (v' : Nat),
      ScopedThread.destruct (ScopedThread.construct tid start arg cs).1 js' v' =
        ScopedThread.destruct (ScopedThread.construct tid start arg cs).1 js v) :=
  ⟨rfl, fun _ _ => rfl⟩

/-- Claim C8: under the interleaving model of N threads each performing
Acquire / critical section / Release on one shared native mutex (acquire
atomically succeeds only when the mutex is free, blocking otherwise), in
every reachable state at most one thread is inside its critical section. -/
theorem mutex_mutual_exclusion {n : Nat} {s : MutexSys n} (i j : Fin n)
    (hreach : MutexReachable n s) (hi : s.pc i = ThreadPC.inCS)
    (hj : s.pc j = ThreadPC.inCS) : i = j := by
  have h1 := mutexInv_reachable hreach i hi
  have h2 := mutexInv_reachable hreach j hj
  rw [h1] at h2
  exact Option.some.inj h2

/-- Concrete one-thread system state in which thread 0 has acquired the
mutex and is inside its critical section. -/
def csState : MutexSys 1 :=
  ⟨some 0, Function.update (MutexSys.init 1).pc 0 ThreadPC.inCS⟩

/-- Claim C8 witness: the state `csState` is reachable (initial state, then
thread 0 acquires), thread 0 is in its critical section there, and mutual
exclusion instantiated at that state yields the (only possible) equality of
critical-section occupants. -/
theorem mutex_mutual_exclusion_witness :
    MutexReachable 1 csState ∧ csState.pc 0 = ThreadPC.inCS ∧
    (0 : Fin 1) = 0 :=
  ⟨MutexReachable.step MutexReachable.init
      (MutexStep.acquire 0 (MutexSys.init 1) rfl rfl),
    by simp [csState, MutexSys.init],
    mutex_mutual_exclusion 0 0
      (MutexReachable.step MutexReachable.init
        (MutexStep.acquire 0 (MutexSys.init 1) rfl rfl))
      (by simp [csState, MutexSys.init])
      (by simp [csState, MutexSys.init])⟩

/-- Claim C9: `Mutex::Lock` and `Mutex::Unlock` return `void` (`Unit`) and
silently discard the integer status of the native lock/unlock call: their
entire result is independent of that status, so a native failure is
invisible to the caller. -/
theorem mutex_lock_unlock_discard_status (mu : Mutex) (s s' : Status) :
    Mutex.Lock mu s = Mutex.Lock mu s' ∧ (Mutex.Lock mu s).1 = () ∧
    Mutex.Unlock mu s = Mutex.Unlock mu s' ∧ (Mutex.Unlock mu s).1 = () :=
  ⟨rfl, rfl, rfl, rfl⟩

/-- Claim C10: `ScopedThread`'s destructor joins unconditionally — the
object carries no success flag (its state is the same whatever status the
native create call returned, unlike `LockGuardRaw.unlock_`), and for every
construction, including one whose native `pthread_create` failed,
destruction still performs the native join on the (then never-initialized)
`thread_` handle. -/
theorem scopedThread_joins_unconditionally (tid start arg : Nat)
    (cs cs' js : Status) (v : Nat) :
    (ScopedThread.construct tid start arg cs).1 =
      (ScopedThread.construct tid start arg cs').1 ∧
    ScopedThread.destruct (ScopedThread.construct tid start arg cs).1 js v =
      [NativeCall.thread_join tid] :=
  ⟨rfl, rfl⟩

end avd
